import Mathlib

/-!
# Verification of the STT AI Editor plugin (`src/main.ts`)

Shallow embedding of the speech-to-text editor plugin: the recording state
machine (`toggleRecording` / `startRecording` / `stopRecording`), the capture
buffer (`audioChunks`, `ondataavailable`), the pipeline (`handleStop`,
`transcribeAudio`, `cleanText`), plugin initialisation (`onload`,
`loadSettings`) and the settings tab's mutation handlers.

External collaborators (the microphone, the two HTTP services, the active
editor pane) are modelled as oracle parameters; the observable actions the
code performs (notices, the capture start, the outgoing requests, the text
delivery, the buffer clear) are logged as an explicit `Effect` list so that
claims about "is never invoked" / "exactly once" become statements about
that list.

Machine-level transport details that no claim refers to (the `FileReader`
data-URL base64 step, `JSON.stringify`) are not re-encoded: the request
effect carries the raw blob bytes and the structured request fields.
-/

set_option autoImplicit false

namespace STTAiEditor

/-- One captured audio segment (a `Blob` chunk), as its byte contents. -/
abbrev Segment := List Nat

/-- A finalized audio blob: `new Blob(chunks, { type })` concatenates the
chunk bytes; `mime` models the `type` option. -/
structure Blob where
  data : List Nat
  mime : String
  deriving Repr, DecidableEq

/-- `interface STTAiEditorSettings` from the source. -/
structure STTAiEditorSettings where
  googleApiKey : String
  geminiApiKey : String
  languageCode : String
  deriving Repr, DecidableEq

/-- `DEFAULT_SETTINGS` from the source. -/
def DEFAULT_SETTINGS : STTAiEditorSettings :=
  { googleApiKey := "", geminiApiKey := "", languageCode := "en-US" }

/-- What `loadData()` returns: a stored record in which each settings field
may be absent (`Object.assign({}, DEFAULT_SETTINGS, data)` fills gaps). -/
structure StoredData where
  googleApiKey : Option String
  geminiApiKey : Option String
  languageCode : Option String
  deriving Repr, DecidableEq

/-- `loadSettings()`: `Object.assign({}, DEFAULT_SETTINGS, await this.loadData())`
keeps a stored field when present, otherwise the default. -/
def loadSettings (d : StoredData) : STTAiEditorSettings :=
  { googleApiKey := d.googleApiKey.getD DEFAULT_SETTINGS.googleApiKey
    geminiApiKey := d.geminiApiKey.getD DEFAULT_SETTINGS.geminiApiKey
    languageCode := d.languageCode.getD DEFAULT_SETTINGS.languageCode }

/-- Device-side status of the `MediaRecorder` held in `this.mediaRecorder`:
`recording` after `start()`, `stopRequested` after `stop()` was called but
before the asynchronous `onstop` event fired, `stopped` afterwards. -/
inductive RecState
  | recording
  | stopRequested
  | stopped
  deriving Repr, DecidableEq

/-- The plugin's mutable fields (`settings`, `isRecording`, `mediaRecorder`,
`audioChunks`, `genAI`). `genAI` holds the API key the
`GoogleGenerativeAI` handle was constructed with, or `none` when the handle
was never assigned (`genAI: GoogleGenerativeAI | null = null`). -/
structure PluginState where
  settings : STTAiEditorSettings
  isRecording : Bool
  mediaRecorder : Option RecState
  audioChunks : List Segment
  genAI : Option String
  deriving Repr, DecidableEq

/-- `onload()`: load settings, then `if (this.settings.geminiApiKey)`
(JS truthiness: the empty string is falsy) construct the generative handle.
Ribbon icon and settings-tab registration have no state of their own. -/
def onload (d : StoredData) : PluginState :=
  let settings := loadSettings d
  { settings := settings
    isRecording := false
    mediaRecorder := none
    audioChunks := []
    genAI := if settings.geminiApiKey = "" then none else some settings.geminiApiKey }

/-- Observable actions the plugin performs on its collaborators. -/
inductive Effect
  | notice (msg : String)
  | recorderCreated
  | captureStarted
  | recorderStopRequested
  | fetchRequest (apiKey : String) (encoding : String) (sampleRateHertz : Nat)
      (languageCode : String) (audioContent : List Nat)
  | generateRequest (model : String) (prompt : String)
  | replaceSelection (text : String)
  | sessionCleared
  deriving Repr, DecidableEq

/-- Whether an effect is the outgoing generative-service request. -/
def Effect.isGenerateRequest : Effect → Bool
  | .generateRequest _ _ => true
  | _ => false

/-- Whether an effect is the delivery-sink invocation
(`editor.replaceSelection`). -/
def Effect.isReplaceSelection : Effect → Bool
  | .replaceSelection _ => true
  | _ => false

/-- Whether an effect is the outgoing recognition-service request. -/
def Effect.isFetchRequest : Effect → Bool
  | .fetchRequest _ _ _ _ _ => true
  | _ => false

/-- `startRecording()`: await `getUserMedia` (the oracle `micGranted` says
whether it resolves); on grant construct a recorder, install the handlers,
`start()` it, set `isRecording = true` and show a notice; on denial show the
error notice and leave every field unchanged. -/
def startRecording (s : PluginState) (micGranted : Bool) : PluginState × List Effect :=
  if micGranted then
    ({ s with mediaRecorder := some RecState.recording, isRecording := true },
     [Effect.recorderCreated, Effect.captureStarted, Effect.notice "Recording started..."])
  else
    (s, [Effect.notice "Error accessing microphone. Please check permissions."])

/-- `stopRecording()`: guarded by `if (this.mediaRecorder && this.isRecording)`;
calls `mediaRecorder.stop()` (the `onstop` event fires later), sets
`isRecording = false`, shows a notice. Otherwise nothing happens. -/
def stopRecording (s : PluginState) : PluginState × List Effect :=
  match s.mediaRecorder with
  | some _ =>
    if s.isRecording then
      ({ s with mediaRecorder := some RecState.stopRequested, isRecording := false },
       [Effect.recorderStopRequested, Effect.notice "Recording stopped."])
    else (s, [])
  | none => (s, [])

/-- `toggleRecording()`: the ribbon-icon entry point. Branches only on
`this.isRecording`. -/
def toggleRecording (s : PluginState) (micGranted : Bool) : PluginState × List Effect :=
  if s.isRecording then stopRecording s else startRecording s micGranted

/-- The `ondataavailable` handler: `this.audioChunks.push(event.data)`. -/
def ondataavailable (s : PluginState) (seg : Segment) : PluginState :=
  { s with audioChunks := s.audioChunks ++ [seg] }

/-- The `new Blob(this.audioChunks, { type: 'audio/webm' })` step at the top
of `handleStop`: concatenates the chunks in order. -/
def finalizeBlob (s : PluginState) : Blob :=
  { data := s.audioChunks.flatten, mime := "audio/webm" }

/-- One alternative inside a recognition result; only its `transcript`
field is consumed. -/
structure SpeechAlternative where
  transcript : String
  deriving Repr, DecidableEq

/-- One element of the recognition response's `results` collection. The
`alternatives` field may be absent or empty in the JSON; both read as an
empty list here (indexing either throws in the source). -/
structure SpeechResult where
  alternatives : List SpeechAlternative
  deriving Repr, DecidableEq

/-- The decoded recognition response body. `results` is `none` when the
JSON object carries no `results` field (e.g. an error body). -/
structure RecognizeResponse where
  results : Option (List SpeechResult)
  deriving Repr, DecidableEq

/-- Outcome of `fetch` + `response.json()` for the recognition call:
`networkFailure` when `fetch` itself rejects, otherwise a response with an
HTTP status and a body that either decodes to a recognition payload or is
not decodable JSON (`none`). -/
inductive FetchOutcome
  | networkFailure
  | response (status : Nat) (body : Option RecognizeResponse)
  deriving Repr, DecidableEq

/-- How `transcribeAudio` can reject: `noTranscript` is
`reject('No transcript found')`; `serviceError` is `reject(error)` with the
caught exception (network failure, undecodable body, or a runtime error
while indexing the payload). -/
inductive TranscribeError
  | noTranscript
  | serviceError
  deriving Repr, DecidableEq

/-- The body of `reader.onloadend` in `transcribeAudio`, after the `fetch`
settles as `net`.  The source never reads `response.status` or
`response.ok`: it goes straight to `response.json()` and then to
`data.results && data.results.length > 0`. When `results` is non-empty it
resolves `data.results[0].alternatives[0].transcript`; if `alternatives`
is empty that indexing throws inside the `try` and is rejected as the
caught error. -/
def transcribeResult (net : FetchOutcome) : Except TranscribeError String :=
  match net with
  | .networkFailure => .error .serviceError
  | .response _status body =>
    match body with
    | none => .error .serviceError
    | some data =>
      match data.results with
      | some (r :: _) =>
        match r.alternatives with
        | a :: _ => .ok a.transcript
        | [] => .error .serviceError
      | some [] => .error .noTranscript
      | none => .error .noTranscript

/-- `transcribeAudio(audioBlob)`: issues exactly one recognition request
(the fixed `WEBM_OPUS` / 48000 Hz config, the configured language code, the
key in the URL, the blob as the audio content) and settles as
`transcribeResult` describes. -/
def transcribeAudio (googleApiKey languageCode : String) (audioBlob : Blob)
    (net : FetchOutcome) : List Effect × Except TranscribeError String :=
  ([Effect.fetchRequest googleApiKey "WEBM_OPUS" 48000 languageCode audioBlob.data],
   transcribeResult net)

/-- How `cleanText` can fail: `notInitialized` is
`throw new Error('Generative AI not initialized.')`; `serviceError` is a
rejection from the generative request itself. -/
inductive CleanError
  | notInitialized
  | serviceError
  deriving Repr, DecidableEq

/-- The prompt template of `cleanText`: the fixed instruction with the raw
text interpolated at the end. -/
def cleanPrompt (text : String) : String :=
  "Please clean up the following text, correcting any grammar or spelling mistakes, and improving the overall readability. Do not add any new information or change the meaning of the text.\n\n" ++ text

/-- `cleanText(text)`: throws immediately when `this.genAI` is null;
otherwise gets the `gemini-pro` model, sends one `generateContent` request
with the prompt, and returns `response.text()` as-is. The oracle `gen`
gives the service's settled outcome for a prompt. -/
def cleanText (genAI : Option String) (gen : String → Except Unit String)
    (text : String) : List Effect × Except CleanError String :=
  match genAI with
  | none => ([], .error .notInitialized)
  | some _ =>
    let prompt := cleanPrompt text
    ([Effect.generateRequest "gemini-pro" prompt],
     match gen prompt with
     | .ok completion => .ok completion
     | .error _ => .error .serviceError)

/-- The error notice shown by `handleStop`'s `catch` block. -/
def errorNotice : Effect :=
  Effect.notice "Error processing audio. Please check the console for details."

/-- The oracles one `handleStop` run consults: the recognition fetch
outcome, the generative service, and whether an active markdown view with
an editor exists. -/
structure HandleStopEnv where
  net : FetchOutcome
  gen : String → Except Unit String
  editorPresent : Bool

/-- `handleStop()`: build the blob from `audioChunks`; `try` transcription
then cleaning then (only if an active editor exists) `replaceSelection`;
`catch` shows the error notice; `finally` clears `audioChunks` — modelled
by the `sessionCleared` effect and the emptied field, last in every run. -/
def handleStop (s : PluginState) (env : HandleStopEnv) : PluginState × List Effect :=
  let audioBlob := finalizeBlob s
  let t := transcribeAudio s.settings.googleApiKey s.settings.languageCode audioBlob env.net
  let tryEffects :=
    match t.2 with
    | .error _ => t.1 ++ [errorNotice]
    | .ok transcript =>
      let c := cleanText s.genAI env.gen transcript
      match c.2 with
      | .error _ => t.1 ++ c.1 ++ [errorNotice]
      | .ok cleanedText =>
        t.1 ++ c.1 ++
          (if env.editorPresent then [Effect.replaceSelection cleanedText] else [])
  ({ s with audioChunks := [] }, tryEffects ++ [Effect.sessionCleared])

/-- A settings-tab edit: each text field's `onChange` writes one settings
field and saves; none touches `genAI` (see `STTAiEditorSettingTab.display`). -/
inductive SettingsChange
  | setGoogleApiKey (v : String)
  | setGeminiApiKey (v : String)
  | setLanguageCode (v : String)
  deriving Repr, DecidableEq

/-- Apply one settings-tab edit to the plugin state. -/
def applyChange (s : PluginState) (c : SettingsChange) : PluginState :=
  match c with
  | .setGoogleApiKey v => { s with settings := { s.settings with googleApiKey := v } }
  | .setGeminiApiKey v => { s with settings := { s.settings with geminiApiKey := v } }
  | .setLanguageCode v => { s with settings := { s.settings with languageCode := v } }

/-- The asynchronous events that can reach the plugin between suspensions:
a ribbon toggle (with the microphone grant outcome it would observe), a
`dataavailable` event from the device, and the `onstop` confirmation that
runs `handleStop`. -/
inductive Ev
  | toggle (micGranted : Bool)
  | dataAvailable (seg : Segment)
  | stopFired (env : HandleStopEnv)

/-- System step: `toggle` runs `toggleRecording`; a `dataavailable` event
appends only while its recorder is recording; the `onstop` event fires only
for a recorder whose stop was requested — the device marks it stopped and
the plugin's `handleStop` handler runs. -/
def step (s : PluginState) (e : Ev) : PluginState × List Effect :=
  match e with
  | .toggle g => toggleRecording s g
  | .dataAvailable seg =>
    if s.mediaRecorder = some RecState.recording then (ondataavailable s seg, []) else (s, [])
  | .stopFired env =>
    if s.mediaRecorder = some RecState.stopRequested then
      handleStop { s with mediaRecorder := some RecState.stopped } env
    else (s, [])

/-- `Recording` in the spec's state machine: `isRecording` is set. -/
def RecordingState (s : PluginState) : Prop :=
  s.isRecording = true

/-- `Processing` in the spec's state machine: `stop()` was issued
(`isRecording` already cleared, the recorder flushing) and the pipeline has
not settled yet. -/
def ProcessingState (s : PluginState) : Prop :=
  s.isRecording = false ∧ s.mediaRecorder = some RecState.stopRequested

/-- `Idle` in the spec's state machine: not recording and no pipeline
pending. -/
def IdleState (s : PluginState) : Prop :=
  s.isRecording = false ∧ s.mediaRecorder ≠ some RecState.stopRequested

/-! ### Helper lemmas -/

/-- A run of `dataavailable` events appends its segments, in order, after
whatever the chunk buffer already held. -/
theorem foldl_ondataavailable (segs : List Segment) (s : PluginState) :
    (segs.foldl ondataavailable s).audioChunks = s.audioChunks ++ segs := by
  induction segs generalizing s with
  | nil => simp
  | cons seg rest ih =>
    rw [List.foldl_cons, ih]
    simp [ondataavailable]

/-- A settings-tab edit never touches the `genAI` field. -/
theorem applyChange_genAI (s : PluginState) (c : SettingsChange) :
    (applyChange s c).genAI = s.genAI := by
  cases c <;> rfl

/-- Any sequence of settings-tab edits leaves `genAI` unchanged. -/
theorem foldl_applyChange_genAI (changes : List SettingsChange) (s : PluginState) :
    (changes.foldl applyChange s).genAI = s.genAI := by
  induction changes generalizing s with
  | nil => rfl
  | cons c rest ih => rw [List.foldl_cons, ih, applyChange_genAI]

/-! ### Claim theorems -/

/-- C6: for every sequence of N segments appended during one Recording
period (the `dataavailable` events folded over an initially empty chunk
buffer), the finalized blob equals the concatenation of the segments in
arrival order. -/
theorem finalize_concat_arrival_order (s : PluginState) (segs : List Segment)
    (h : s.audioChunks = []) :
    (finalizeBlob (segs.foldl ondataavailable s)).data = segs.flatten := by
  simp [finalizeBlob, foldl_ondataavailable, h]

theorem finalize_concat_arrival_order_witness :
    (finalizeBlob ([[1, 2], [3]].foldl ondataavailable (onload ⟨none, none, none⟩))).data
      = [1, 2, 3] := by
  rw [finalize_concat_arrival_order (onload ⟨none, none, none⟩) [[1, 2], [3]] rfl]
  rfl

/-- C2: for every `Processing` state that settles (the `onstop` event runs
`handleStop`), whatever the pipeline's outcome, the captured chunk buffer
is emptied, it is cleared exactly once (one `sessionCleared` effect), the
clear is the last action before control returns, and the machine is back
in `Idle`. -/
theorem processing_run_clears_session_once (s : PluginState) (env : HandleStopEnv)
    (hrec : s.isRecording = false) (hmr : s.mediaRecorder = some RecState.stopRequested) :
    (step s (Ev.stopFired env)).1.audioChunks = [] ∧
    IdleState (step s (Ev.stopFired env)).1 ∧
    (step s (Ev.stopFired env)).2.count Effect.sessionCleared = 1 ∧
    (step s (Ev.stopFired env)).2.getLast? = some Effect.sessionCleared := by
  have hstep : step s (Ev.stopFired env)
      = handleStop { s with mediaRecorder := some RecState.stopped } env := by
    simp [step, hmr]
  rw [hstep]
  unfold handleStop
  refine ⟨rfl, ⟨hrec, by simp⟩, ?_, by simp⟩
  cases h1 : transcribeResult env.net with
  | error e => simp [transcribeAudio, h1, errorNotice, List.count_append]
  | ok transcript =>
    cases h2 : s.genAI with
    | none => simp [transcribeAudio, cleanText, h1, h2, errorNotice, List.count_append]
    | some key =>
      cases h3 : env.gen (cleanPrompt transcript) with
      | error e => simp [transcribeAudio, cleanText, h1, h2, h3, errorNotice, List.count_append]
      | ok completion =>
        cases h4 : env.editorPresent <;>
          simp [transcribeAudio, cleanText, h1, h2, h3, h4, List.count_append]

/-- A concrete `Processing` state used to instantiate the cleanup theorem. -/
def processingW : PluginState :=
  { settings := { googleApiKey := "gk", geminiApiKey := "", languageCode := "en-US" }
    isRecording := false
    mediaRecorder := some RecState.stopRequested
    audioChunks := [[1]]
    genAI := none }

/-- A concrete environment (network down, generative service down, no
editor) used to instantiate the cleanup theorem. -/
def envW : HandleStopEnv :=
  { net := FetchOutcome.networkFailure, gen := fun _ => Except.error (), editorPresent := false }

theorem processing_run_clears_session_once_witness :
    (step processingW (Ev.stopFired envW)).1.audioChunks = [] ∧
    IdleState (step processingW (Ev.stopFired envW)).1 ∧
    (step processingW (Ev.stopFired envW)).2.count Effect.sessionCleared = 1 ∧
    (step processingW (Ev.stopFired envW)).2.getLast? = some Effect.sessionCleared :=
  processing_run_clears_session_once processingW envW rfl rfl

/-- C5: when transcription fails, the run performs no generative request
and no delivery; when transcription succeeds but cleaning fails, the run
performs no delivery at all — in particular the raw transcript is never
delivered as a fallback. -/
theorem handleStop_failure_isolation (s : PluginState) (env : HandleStopEnv) :
    (∀ e, transcribeResult env.net = Except.error e →
      (handleStop s env).2.all
        (fun eff => ! eff.isGenerateRequest && ! eff.isReplaceSelection) = true) ∧
    (∀ transcript e2, transcribeResult env.net = Except.ok transcript →
      (cleanText s.genAI env.gen transcript).2 = Except.error e2 →
      (handleStop s env).2.all (fun eff => ! eff.isReplaceSelection) = true) := by
  constructor
  · intro e h1
    unfold handleStop
    simp [transcribeAudio, h1, errorNotice, Effect.isGenerateRequest,
      Effect.isReplaceSelection]
  · intro transcript e2 h1 h2
    unfold handleStop
    cases h3 : s.genAI with
    | none =>
      simp [transcribeAudio, h1, cleanText, h3, errorNotice, Effect.isReplaceSelection]
    | some key =>
      cases h4 : env.gen (cleanPrompt transcript) with
      | error u =>
        simp [transcribeAudio, h1, cleanText, h3, h4, errorNotice, Effect.isReplaceSelection,
          Effect.isGenerateRequest]
      | ok completion =>
        simp [cleanText, h3, h4] at h2

theorem handleStop_failure_isolation_witness :
    (handleStop (onload ⟨none, none, none⟩)
        ⟨FetchOutcome.networkFailure, fun _ => Except.error (), true⟩).2.all
      (fun eff => ! eff.isGenerateRequest && ! eff.isReplaceSelection) = true ∧
    (handleStop (onload ⟨none, some "ak", none⟩)
        ⟨FetchOutcome.response 200 (some ⟨some [⟨[⟨"hi"⟩]⟩]⟩),
         fun _ => Except.error (), true⟩).2.all
      (fun eff => ! eff.isReplaceSelection) = true :=
  ⟨(handleStop_failure_isolation _ _).1 TranscribeError.serviceError rfl,
   (handleStop_failure_isolation _ _).2 "hi" CleanError.serviceError rfl rfl⟩

/-- C7: with the plugin loaded from stored data `d`, when the generative
credential is unconfigured (empty after loading) `cleanText` fails
immediately with the not-initialized error performing no action at all (in
particular no network call); when it is configured, `cleanText` proceeds to
issue the one generative request. -/
theorem cleanText_not_configured (d : StoredData) (gen : String → Except Unit String)
    (text : String) :
    ((loadSettings d).geminiApiKey = "" →
      cleanText (onload d).genAI gen text = ([], Except.error CleanError.notInitialized)) ∧
    ((loadSettings d).geminiApiKey ≠ "" →
      (cleanText (onload d).genAI gen text).1
        = [Effect.generateRequest "gemini-pro" (cleanPrompt text)]) := by
  constructor
  · intro h
    simp [onload, cleanText, h]
  · intro h
    cases h4 : gen (cleanPrompt text) <;> simp [onload, cleanText, h, h4]

theorem cleanText_not_configured_witness :
    cleanText (onload ⟨none, none, none⟩).genAI (fun _ => Except.ok "x") "hello"
      = ([], Except.error CleanError.notInitialized) ∧
    (cleanText (onload ⟨none, some "key", none⟩).genAI (fun _ => Except.ok "x") "hello").1
      = [Effect.generateRequest "gemini-pro" (cleanPrompt "hello")] :=
  ⟨(cleanText_not_configured ⟨none, none, none⟩ (fun _ => Except.ok "x") "hello").1 rfl,
   (cleanText_not_configured ⟨none, some "key", none⟩ (fun _ => Except.ok "x") "hello").2
     (by decide)⟩

/-- C9: with the handle configured, `cleanText` sends exactly one request
whose prompt is the fixed instruction with the raw text embedded verbatim
at its end, and returns the service's completion text unmodified. -/
theorem cleanText_verbatim (key : String) (gen : String → Except Unit String)
    (text completion : String) (h : gen (cleanPrompt text) = Except.ok completion) :
    cleanText (some key) gen text
      = ([Effect.generateRequest "gemini-pro" (cleanPrompt text)], Except.ok completion) ∧
    ∃ instruction, ∀ t, cleanPrompt t = instruction ++ t := by
  refine ⟨by simp [cleanText, h], ?_⟩
  exact ⟨"Please clean up the following text, correcting any grammar or spelling mistakes, and improving the overall readability. Do not add any new information or change the meaning of the text.\n\n",
    fun t => rfl⟩

theorem cleanText_verbatim_witness :
    cleanText (some "k") (fun p => Except.ok p) "helo wrld"
      = ([Effect.generateRequest "gemini-pro" (cleanPrompt "helo wrld")],
         Except.ok (cleanPrompt "helo wrld")) :=
  (cleanText_verbatim "k" (fun p => Except.ok p) "helo wrld" (cleanPrompt "helo wrld") rfl).1

/-- C10: `genAI` is assigned only at load time — set exactly when the
credential loaded non-empty — and no sequence of settings-tab edits changes
it; hence whether `cleanText` fails with the not-initialized error is
determined by the credential's value at load time. -/
theorem genAI_fixed_at_load (d : StoredData) (changes : List SettingsChange)
    (gen : String → Except Unit String) (text : String) :
    (changes.foldl applyChange (onload d)).genAI = (onload d).genAI ∧
    ((onload d).genAI = none ↔ (loadSettings d).geminiApiKey = "") ∧
    ((cleanText (changes.foldl applyChange (onload d)).genAI gen text).2
        = Except.error CleanError.notInitialized
      ↔ (loadSettings d).geminiApiKey = "") := by
  refine ⟨foldl_applyChange_genAI changes (onload d), ?_, ?_⟩
  · by_cases h : (loadSettings d).geminiApiKey = "" <;> simp [onload, h]
  · rw [foldl_applyChange_genAI]
    by_cases h : (loadSettings d).geminiApiKey = ""
    · simp [onload, cleanText, h]
    · cases h4 : gen (cleanPrompt text) <;> simp [onload, cleanText, h, h4]

/-- Whether an effect creates or starts a new capture session. -/
def Effect.startsCapture : Effect → Bool
  | .recorderCreated => true
  | .captureStarted => true
  | _ => false

/-- C1 amended: the toggle branches only on `isRecording` — while
`Recording` it routes to `stopRecording`, which creates no recorder and
starts no capture; in every state with `isRecording` cleared, `Processing`
included, it routes to `startRecording`. -/
theorem toggleRecording_routing (s : PluginState) (g : Bool) :
    (s.isRecording = true →
      toggleRecording s g = stopRecording s ∧
      (stopRecording s).2.all (fun e => ! e.startsCapture) = true) ∧
    (s.isRecording = false → toggleRecording s g = startRecording s g) := by
  constructor
  · intro h
    refine ⟨by simp [toggleRecording, h], ?_⟩
    cases hm : s.mediaRecorder with
    | none => simp [stopRecording, hm]
    | some r => cases hr : s.isRecording <;> simp [stopRecording, hm, hr, Effect.startsCapture]
  · intro h
    simp [toggleRecording, h]

theorem toggleRecording_routing_witness :
    (toggleRecording (startRecording (onload ⟨none, none, none⟩) true).1 true
        = stopRecording (startRecording (onload ⟨none, none, none⟩) true).1) ∧
    (toggleRecording (onload ⟨none, none, none⟩) true
        = startRecording (onload ⟨none, none, none⟩) true) :=
  ⟨((toggleRecording_routing (startRecording (onload ⟨none, none, none⟩) true).1 true).1 rfl).1,
   (toggleRecording_routing (onload ⟨none, none, none⟩) true).2 rfl⟩

/-- A `Processing` state reached by a concrete trace: load, toggle (start,
mic granted), one data event, toggle (stop); the recorder is flushing and
the pipeline has not settled. -/
def processingExample : PluginState :=
  (toggleRecording
    (ondataavailable (toggleRecording (onload ⟨some "gkey", some "akey", none⟩) true).1 [7])
    true).1

/-- C1 counterexample: in a `Processing` state the toggle is not a no-op —
it creates a new recorder and starts a new capture. -/
theorem toggle_in_processing_starts_capture :
    ProcessingState processingExample ∧
    Effect.recorderCreated ∈ (toggleRecording processingExample true).2 ∧
    Effect.captureStarted ∈ (toggleRecording processingExample true).2 := by
  refine ⟨⟨rfl, rfl⟩, ?_, ?_⟩ <;> decide

/-- C3 amended: when capture stops with zero segments appended, the blob
is built (empty) and the pipeline is still invoked on it — the recognition
request goes out carrying empty audio content; there is no empty-capture
failure. -/
theorem handleStop_empty_capture_invokes_pipeline (s : PluginState) (env : HandleStopEnv)
    (h : s.audioChunks = []) :
    (finalizeBlob s).data = [] ∧
    Effect.fetchRequest s.settings.googleApiKey "WEBM_OPUS" 48000 s.settings.languageCode []
      ∈ (handleStop s env).2 := by
  have hblob : (finalizeBlob s).data = [] := by simp [finalizeBlob, h]
  refine ⟨hblob, ?_⟩
  unfold handleStop
  cases h1 : transcribeResult env.net with
  | error e => simp [transcribeAudio, h1, hblob, finalizeBlob, h]
  | ok transcript =>
    cases h2 : s.genAI with
    | none => simp [transcribeAudio, cleanText, h1, h2, finalizeBlob, h]
    | some key =>
      cases h3 : env.gen (cleanPrompt transcript) <;>
        simp [transcribeAudio, cleanText, h1, h2, h3, finalizeBlob, h]

theorem handleStop_empty_capture_invokes_pipeline_witness :
    (finalizeBlob (onload ⟨some "gk", none, none⟩)).data = [] ∧
    Effect.fetchRequest "gk" "WEBM_OPUS" 48000 "en-US" []
      ∈ (handleStop (onload ⟨some "gk", none, none⟩)
          ⟨FetchOutcome.networkFailure, fun _ => Except.error (), false⟩).2 :=
  handleStop_empty_capture_invokes_pipeline (onload ⟨some "gk", none, none⟩)
    ⟨FetchOutcome.networkFailure, fun _ => Except.error (), false⟩ rfl

/-- C3 counterexample: a state whose chunk buffer is empty still sends the
recognition request — the pipeline is invoked, not skipped, on zero
segments. -/
theorem empty_capture_pipeline_invoked :
    (onload ⟨some "gkey2", none, none⟩).audioChunks = [] ∧
    ((handleStop (onload ⟨some "gkey2", none, none⟩)
        ⟨FetchOutcome.networkFailure, fun _ => Except.error (), false⟩).2.any
      (fun e => e.isFetchRequest)) = true := by
  exact ⟨rfl, by decide⟩

/-- C4 amended: `transcribeAudio` rejects with the no-transcript kind
exactly when the response body decodes to JSON whose `results` field is
absent or empty — the HTTP status is never consulted, so this includes
non-success statuses with decodable JSON bodies — and rejects with the
thrown-error kind exactly on network failure, an undecodable body, or a
first result with no alternatives. -/
theorem transcribeAudio_error_classification (key lang : String) (blob : Blob)
    (net : FetchOutcome) :
    ((transcribeAudio key lang blob net).2 = Except.error TranscribeError.noTranscript
      ↔ ∃ status data, net = FetchOutcome.response status (some data) ∧
          (data.results = none ∨ data.results = some [])) ∧
    ((transcribeAudio key lang blob net).2 = Except.error TranscribeError.serviceError
      ↔ (net = FetchOutcome.networkFailure ∨
         (∃ status, net = FetchOutcome.response status none) ∨
         (∃ status data r rest, net = FetchOutcome.response status (some data) ∧
           data.results = some (r :: rest) ∧ r.alternatives = []))) := by
  constructor
  · constructor
    · intro h
      cases net with
      | networkFailure => simp [transcribeAudio, transcribeResult] at h
      | response status body =>
        cases body with
        | none => simp [transcribeAudio, transcribeResult] at h
        | some data =>
          refine ⟨status, data, rfl, ?_⟩
          cases hres : data.results with
          | none => exact Or.inl rfl
          | some results =>
            cases results with
            | nil => exact Or.inr rfl
            | cons r rest =>
              cases halt : r.alternatives with
              | nil => simp [transcribeAudio, transcribeResult, hres, halt] at h
              | cons a as => simp [transcribeAudio, transcribeResult, hres, halt] at h
    · rintro ⟨status, data, rfl, hd⟩
      rcases hd with hd | hd <;> simp [transcribeAudio, transcribeResult, hd]
  · constructor
    · intro h
      cases net with
      | networkFailure => exact Or.inl rfl
      | response status body =>
        cases body with
        | none => exact Or.inr (Or.inl ⟨status, rfl⟩)
        | some data =>
          refine Or.inr (Or.inr ?_)
          cases hres : data.results with
          | none => simp [transcribeAudio, transcribeResult, hres] at h
          | some results =>
            cases results with
            | nil => simp [transcribeAudio, transcribeResult, hres] at h
            | cons r rest =>
              cases halt : r.alternatives with
              | nil => exact ⟨status, data, r, rest, rfl, hres, halt⟩
              | cons a as => simp [transcribeAudio, transcribeResult, hres, halt] at h
    · intro h
      rcases h with rfl | ⟨status, rfl⟩ | ⟨status, data, r, rest, rfl, hres, halt⟩
      · rfl
      · rfl
      · simp [transcribeAudio, transcribeResult, hres, halt]

/-- C4 counterexample: with HTTP status 403 (a non-success status) and a
decodable JSON error body with no `results`, the rejection is the
no-transcript kind, not the service-error kind. -/
theorem transcribe_http_error_conflated :
    (transcribeAudio "k" "en-US" ⟨[], "audio/webm"⟩
        (FetchOutcome.response 403 (some ⟨none⟩))).2
      = Except.error TranscribeError.noTranscript ∧
    (transcribeAudio "k" "en-US" ⟨[], "audio/webm"⟩
        (FetchOutcome.response 403 (some ⟨none⟩))).2
      ≠ Except.error TranscribeError.serviceError := by
  exact ⟨rfl, by simp [transcribeAudio, transcribeResult]⟩

/-- C8 amended: on a run in which transcription and refinement both
succeed, the delivery sink receives exactly the refined text, exactly once
— when an active editor exists; with no active editor the run still
succeeds but delivers nothing. -/
theorem delivery_exactly_once_with_editor (s : PluginState) (env : HandleStopEnv)
    (transcript completion : String)
    (ht : transcribeResult env.net = Except.ok transcript)
    (hc : (cleanText s.genAI env.gen transcript).2 = Except.ok completion) :
    (handleStop s env).2.filter (fun e => e.isReplaceSelection)
      = (if env.editorPresent then [Effect.replaceSelection completion] else []) := by
  unfold handleStop
  cases h2 : s.genAI with
  | none => simp [cleanText, h2] at hc
  | some key =>
    cases h3 : env.gen (cleanPrompt transcript) with
    | error u => simp [cleanText, h2, h3] at hc
    | ok completion2 =>
      have hcc : completion2 = completion := by
        simpa [cleanText, h2, h3] using hc
      subst hcc
      cases h4 : env.editorPresent <;>
        simp [transcribeAudio, cleanText, ht, h2, h3, h4, Effect.isReplaceSelection]

/-- The state used to exercise a fully successful run: plugin loaded with
both credentials, two chunks captured. -/
def successW : PluginState :=
  { onload ⟨some "gk", some "ak", none⟩ with audioChunks := [[1], [2]] }

/-- The environment of a fully successful run with no active editor: the
recognition service returns one result, the generative service completes. -/
def noEditorEnv : HandleStopEnv :=
  { net := FetchOutcome.response 200 (some ⟨some [⟨[⟨"test phrase"⟩]⟩]⟩)
    gen := fun _ => Except.ok "Test phrase."
    editorPresent := false }

/-- C8 counterexample: a fully successful run (both requests go out and
succeed, no error notice) with no active editor pane delivers nothing —
the full effect list shows zero `replaceSelection` invocations. -/
theorem successful_run_without_editor_no_delivery :
    (handleStop successW noEditorEnv).2
      = [Effect.fetchRequest "gk" "WEBM_OPUS" 48000 "en-US" [1, 2],
         Effect.generateRequest "gemini-pro" (cleanPrompt "test phrase"),
         Effect.sessionCleared] := by
  rfl

theorem delivery_exactly_once_with_editor_witness :
    (handleStop successW
        ⟨FetchOutcome.response 200 (some ⟨some [⟨[⟨"test phrase"⟩]⟩]⟩),
         fun _ => Except.ok "Test phrase.", true⟩).2.filter
      (fun e => e.isReplaceSelection)
      = [Effect.replaceSelection "Test phrase."] :=
  delivery_exactly_once_with_editor successW
    ⟨FetchOutcome.response 200 (some ⟨some [⟨[⟨"test phrase"⟩]⟩]⟩),
     fun _ => Except.ok "Test phrase.", true⟩
    "test phrase" "Test phrase." rfl rfl

end STTAiEditor
